import Mathlib

/-!
Verification of the SimplePOS cart-to-transaction settlement pipeline.

The definitions below are a shallow embedding of the program:

* the client-side pricing engine of `client/src/hooks/use-pos.ts`
  (subtotal, discount, capped discount, discounted subtotal, tax, total);
* the server storage layer of `server/storage.ts` (`MemStorage` cart and
  product operations, plus `DatabaseStorage.getCartItems` with its optional
  user filter), with the persisted maps modelled as insertion-ordered lists
  of records keyed by their integer `id` fields;
* the HTTP route handlers of the server routes file (`POST /api/cart`,
  `PUT /api/cart/:id`, `DELETE /api/cart/:id`, `DELETE /api/cart`,
  `GET /api/cart`, `POST /api/transactions`).

Currency amounts are modelled as rationals.  JavaScript falsy-coalescing
(`x || d`, which replaces 0, null, undefined and the empty string by the
default) is embedded explicitly by the `js*` helper functions.
-/

namespace SimplePOS

/-- Discount kind: `'percentage' | 'amount'` in `use-pos.ts`. -/
inductive DiscountType where
  | percentage
  | amount
deriving DecidableEq

/-- One line of the priced cart snapshot, as consumed by the pricing
calculations in `use-pos.ts` (`item.price * item.quantity`). -/
structure PricingLine where
  price : ℚ
  quantity : ℚ
deriving DecidableEq

/-- Embeds `use-pos.ts` line 83:
`cartItems.reduce((sum, item) => sum + (item.price * item.quantity), 0)`. -/
def cartSubtotal (items : List PricingLine) : ℚ :=
  items.foldl (fun sum item => sum + item.price * item.quantity) 0

/-- Embeds `use-pos.ts` lines 86-88: raw discount amount before capping. -/
def discountAmount (dType : DiscountType) (discount subtotal : ℚ) : ℚ :=
  match dType with
  | .percentage => subtotal * discount / 100
  | .amount => discount

/-- Embeds `use-pos.ts` line 91:
`Math.min(discountAmount, cartSubtotal)`. -/
def cappedDiscountAmount (dType : DiscountType) (discount subtotal : ℚ) : ℚ :=
  min (discountAmount dType discount subtotal) subtotal

/-- Embeds `use-pos.ts` line 94: `cartSubtotal - cappedDiscountAmount`. -/
def discountedSubtotal (dType : DiscountType) (discount subtotal : ℚ) : ℚ :=
  subtotal - cappedDiscountAmount dType discount subtotal

/-- Embeds `use-pos.ts` line 96:
`settings?.taxRate ? settings.taxRate / 100 : 0.075`.
A configured rate of 0 is falsy in JavaScript, so it falls back to the
7.5% default exactly like an absent setting. -/
def jsTaxRate (settingsTaxRate : Option ℚ) : ℚ :=
  match settingsTaxRate with
  | some r => if r = 0 then 3 / 40 else r / 100
  | none => 3 / 40

/-- Embeds `use-pos.ts` line 97: `discountedSubtotal * taxRate`, where `taxRate`
is the already-divided fraction produced by `jsTaxRate`. -/
def cartTax (dType : DiscountType) (discount subtotal taxRate : ℚ) : ℚ :=
  discountedSubtotal dType discount subtotal * taxRate

/-- Embeds `use-pos.ts` line 98: `discountedSubtotal + cartTax`. -/
def cartTotal (dType : DiscountType) (discount subtotal taxRate : ℚ) : ℚ :=
  discountedSubtotal dType discount subtotal + cartTax dType discount subtotal taxRate

/-- Claim C1: for every cart snapshot with non-negative quantities, every
discount specification and every tax rate r, the computed tax equals
(subtotal − cappedDiscount) × r/100 — tax on the post-discount amount,
never on the gross subtotal — and the computed total equals
(subtotal − cappedDiscount) + tax.  Moreover a configured non-zero rate r
is used as r/100, and for subtotal 100, percentage discount 20 and tax
rate 10: discount = 20, discountedSubtotal = 80, tax = 8, total = 88. -/
theorem tax_computed_on_discounted_subtotal
    (items : List PricingLine) (dType : DiscountType) (dValue r : ℚ)
    (hq : ∀ i ∈ items, 0 ≤ i.quantity) :
    cartTax dType dValue (cartSubtotal items) (r / 100)
      = (cartSubtotal items - cappedDiscountAmount dType dValue (cartSubtotal items)) * r / 100
    ∧ cartTotal dType dValue (cartSubtotal items) (r / 100)
      = (cartSubtotal items - cappedDiscountAmount dType dValue (cartSubtotal items))
        + cartTax dType dValue (cartSubtotal items) (r / 100)
    ∧ (r ≠ 0 → jsTaxRate (some r) = r / 100)
    ∧ cartSubtotal [⟨100, 1⟩] = 100
    ∧ cappedDiscountAmount .percentage 20 100 = 20
    ∧ discountedSubtotal .percentage 20 100 = 80
    ∧ cartTax .percentage 20 100 (10 / 100) = 8
    ∧ cartTotal .percentage 20 100 (10 / 100) = 88 := by
  refine ⟨?_, ?_, ?_, ?_, ?_, ?_, ?_, ?_⟩
  · simp [cartTax, discountedSubtotal, mul_div_assoc]
  · rfl
  · intro hr
    simp [jsTaxRate, hr]
  · norm_num [cartSubtotal]
  · norm_num [cappedDiscountAmount, discountAmount]
  · norm_num [discountedSubtotal, cappedDiscountAmount, discountAmount]
  · norm_num [cartTax, discountedSubtotal, cappedDiscountAmount, discountAmount]
  · norm_num [cartTotal, cartTax, discountedSubtotal, cappedDiscountAmount, discountAmount]

/-- Witness for C1 at a concrete input. -/
theorem tax_computed_on_discounted_subtotal_witness :
    cartTax .percentage 20 (cartSubtotal [⟨100, 1⟩]) (10 / 100)
      = (cartSubtotal [⟨100, 1⟩]
          - cappedDiscountAmount .percentage 20 (cartSubtotal [⟨100, 1⟩])) * 10 / 100 :=
  (tax_computed_on_discounted_subtotal [⟨100, 1⟩] .percentage 20 10
    (by intro i hi; simp at hi; simp [hi])).1

/-- Claim C2: for every subtotal S ≥ 0 and discount value v ≥ 0, the capped
discount equals min(rawDiscount, S) with rawDiscount = S·v/100 for a
percentage discount and v for a fixed-amount discount; hence the capped
discount never exceeds S and the discounted subtotal is never negative. -/
theorem cappedDiscount_eq_min_and_bounded
    (S v : ℚ) (hS : 0 ≤ S) (hv : 0 ≤ v) (dType : DiscountType) :
    cappedDiscountAmount dType v S
      = min (match dType with
             | .percentage => S * v / 100
             | .amount => v) S
    ∧ cappedDiscountAmount dType v S ≤ S
    ∧ 0 ≤ S - cappedDiscountAmount dType v S := by
  refine ⟨?_, ?_, ?_⟩
  · cases dType <;> rfl
  · exact min_le_right _ _
  · exact sub_nonneg.mpr (min_le_right _ _)

/-- Witness for C2 at a concrete input. -/
theorem cappedDiscount_eq_min_and_bounded_witness :
    cappedDiscountAmount .amount 30 25 = min 30 25
    ∧ cappedDiscountAmount .amount 30 25 ≤ 25
    ∧ 0 ≤ 25 - cappedDiscountAmount .amount 30 25 :=
  cappedDiscount_eq_min_and_bounded 25 30 (by norm_num) (by norm_num) .amount

/-! ## Server data model (`shared/schema.ts`, `server/storage.ts`) -/

/-- A row of the `products` table
(`id, name, price, category, inventory, imageUrl, userId`).
`inventory` is a JavaScript number; the code never guards it against going
negative, so it is modelled as an integer. -/
structure Product where
  id : ℕ
  name : String
  price : ℚ
  category : String
  inventory : ℤ
  imageUrl : Option String
  userId : Option ℕ
deriving DecidableEq

/-- A row of the `cart_items` table
(`id, transactionId, productId, quantity, price, userId`);
`transactionId = none` means the line is pending, `some t` means the line
is bound to transaction `t`. -/
structure CartItem where
  id : ℕ
  transactionId : Option ℕ
  productId : ℕ
  quantity : ℤ
  price : ℚ
  userId : Option ℕ
deriving DecidableEq

/-- A row of the `transactions` table. -/
structure Txn where
  id : ℕ
  subtotal : ℚ
  tax : ℚ
  total : ℚ
  discount : Option ℚ
  discountType : Option String
  paymentMethod : String
  cashierId : Option ℕ
  userId : Option ℕ
  completed : Bool
  status : Option String
deriving DecidableEq

/-- The payload accepted by `addToCart` (`InsertCartItem` in
`shared/schema.ts`: every picked column is optional except those marked
not-null; `quantity` defaults in code, not here). -/
structure InsertCartItem where
  transactionId : Option ℕ := none
  productId : ℕ
  quantity : Option ℤ := none
  price : ℚ
  userId : Option ℕ := none
deriving DecidableEq

/-- The payload accepted by `createTransaction` (`InsertTransaction`). -/
structure InsertTransaction where
  subtotal : ℚ
  tax : ℚ
  total : ℚ
  discount : Option ℚ := none
  discountType : Option String := none
  paymentMethod : String
  cashierId : Option ℕ := none
  userId : Option ℕ := none
  completed : Option Bool := none
  status : Option String := none
deriving DecidableEq

/-- The `MemStorage` state: insertion-ordered maps keyed by id, modelled as
lists of rows, plus the id counters. -/
structure Store where
  products : List Product
  cartItems : List CartItem
  transactions : List Txn
  cartItemId : ℕ
  transactionId : ℕ
deriving DecidableEq

/-! ### JavaScript falsy-coalescing helpers -/

/-- Embeds `item.quantity || 1`: undefined and 0 are falsy and become 1. -/
def jsQty (q : Option ℤ) : ℤ :=
  match q with
  | some v => if v = 0 then 1 else v
  | none => 1

/-- Embeds `x || null` on an optional integer id: 0 is falsy and becomes null. -/
def jsOptNat (o : Option ℕ) : Option ℕ :=
  match o with
  | some v => if v = 0 then none else some v
  | none => none

/-- Embeds `x || null` on an optional numeric amount: 0 is falsy and becomes null. -/
def jsOptRat (o : Option ℚ) : Option ℚ :=
  match o with
  | some v => if v = 0 then none else some v
  | none => none

/-- Embeds `x || null` on an optional string: the empty string is falsy. -/
def jsOptStr (o : Option String) : Option String :=
  match o with
  | some v => if v = "" then none else some v
  | none => none

/-! ### `MemStorage` cart, product and transaction methods -/

/-- The lines not associated to any transaction
(`item.transactionId === undefined || item.transactionId === null`). -/
def pendingItems (s : Store) : List CartItem :=
  s.cartItems.filter (fun i => i.transactionId = none)

/-- Embeds `MemStorage.getCartItems(transactionId?)`: with a truthy transaction id
it returns that transaction's lines, otherwise the pending lines. -/
def getCartItems (s : Store) (txId : Option ℕ) : List CartItem :=
  match txId with
  | some t =>
    if t = 0 then pendingItems s
    else s.cartItems.filter (fun i => i.transactionId = some t)
  | none => pendingItems s

/-- Embeds `MemStorage.removeCartItem(id)`: `this.cartItems.delete(id)`, returning
whether a row with that id existed. -/
def removeCartItem (s : Store) (id : ℕ) : Store × Bool :=
  ({ s with cartItems := s.cartItems.filter (fun i => ¬ i.id = id) },
   s.cartItems.any (fun i => i.id = id))

/-- Embeds `MemStorage.updateCartItem(id, quantity)`: missing id returns undefined;
`quantity <= 0` removes the row; otherwise the row's quantity is replaced
in place. -/
def updateCartItem (s : Store) (id : ℕ) (quantity : ℤ) : Store × Option CartItem :=
  match s.cartItems.find? (fun i => i.id = id) with
  | none => (s, none)
  | some item =>
    if quantity ≤ 0 then ((removeCartItem s id).1, none)
    else
      let updated : CartItem := { item with quantity := quantity }
      ({ s with cartItems := s.cartItems.map (fun i => if i.id = id then updated else i) },
       some updated)

/-- Embeds `MemStorage.addToCart(item)`: if a line in the same transaction scope
already references the product, merge by adding `item.quantity || 1` to its
quantity via `updateCartItem`; otherwise append a fresh row with the next id
(the merge path can return undefined when the merged quantity is ≤ 0,
mirroring the unchecked `as Promise<CartItem>` cast in the source). -/
def addToCart (s : Store) (item : InsertCartItem) : Store × Option CartItem :=
  match (getCartItems s item.transactionId).find? (fun i => i.productId = item.productId) with
  | some existingItem =>
    updateCartItem s existingItem.id (existingItem.quantity + jsQty item.quantity)
  | none =>
    let newItem : CartItem :=
      { id := s.cartItemId
        transactionId := jsOptNat item.transactionId
        productId := item.productId
        quantity := jsQty item.quantity
        price := item.price
        userId := jsOptNat item.userId }
    ({ s with cartItems := s.cartItems ++ [newItem], cartItemId := s.cartItemId + 1 },
     some newItem)

/-- Embeds `MemStorage.clearCart(transactionId?)`: with a truthy transaction id it
deletes that transaction's lines, otherwise the pending lines. -/
def clearCart (s : Store) (txId : Option ℕ) : Store :=
  match txId with
  | some t =>
    if t = 0 then { s with cartItems := s.cartItems.filter (fun i => ¬ i.transactionId = none) }
    else { s with cartItems := s.cartItems.filter (fun i => ¬ i.transactionId = some t) }
  | none => { s with cartItems := s.cartItems.filter (fun i => ¬ i.transactionId = none) }

/-- Embeds `MemStorage.getProductById(id)`. -/
def getProductById (s : Store) (id : ℕ) : Option Product :=
  s.products.find? (fun p => p.id = id)

/-- Embeds `MemStorage.updateProduct(id, patch)` specialised to the only patch the
settlement pipeline issues, `{ inventory }`: the row is merged with the
patch in place. -/
def updateProductInventory (s : Store) (id : ℕ) (inventory : ℤ) : Store :=
  { s with products :=
      s.products.map (fun p => if p.id = id then { p with inventory := inventory } else p) }

/-- Embeds `MemStorage.createTransaction(transaction)`: appends a row with the next
id, applying the `|| null` / `|| false` defaulting of the source. -/
def createTransaction (s : Store) (t : InsertTransaction) : Store × Txn :=
  let newTxn : Txn :=
    { id := s.transactionId
      subtotal := t.subtotal
      tax := t.tax
      total := t.total
      discount := jsOptRat t.discount
      discountType := jsOptStr t.discountType
      paymentMethod := t.paymentMethod
      cashierId := jsOptNat t.cashierId
      userId := jsOptNat t.userId
      completed := t.completed.getD false
      status := jsOptStr t.status }
  ({ s with transactions := s.transactions ++ [newTxn], transactionId := s.transactionId + 1 },
   newTxn)

/-! ### `DatabaseStorage.getCartItems` (user-filter capable variant) -/

/-- Embeds `DatabaseStorage.getCartItems(transactionId?, userId?)`: filters on the
transaction scope (pending when the id is falsy) and, when a truthy
`userId` is supplied, additionally on the owning user.  The cart routes
call it with no arguments at all. -/
def dbGetCartItems (s : Store) (txId : Option ℕ) (userId : Option ℕ) : List CartItem :=
  s.cartItems.filter (fun i =>
    (match txId with
     | some t =>
       if t = 0 then decide (i.transactionId = none) else decide (i.transactionId = some t)
     | none => decide (i.transactionId = none))
    && (match userId with
        | some u => if u = 0 then true else decide (i.userId = some u)
        | none => true))

/-! ### Route handlers (server routes file) -/

/-- Outcome of `POST /api/cart`. -/
inductive PostCartResult where
  | productNotFound
  | outOfStock
  | created (item : Option CartItem)
deriving DecidableEq

/-- Embeds `POST /api/cart`: look the product up (404 if absent), advisory
inventory check against `cartItemData.quantity || 1` (400 if short),
default a falsy price to the product's current price and an undefined
quantity to 1, then `storage.addToCart`. -/
def postCart (s : Store) (body : InsertCartItem) : Store × PostCartResult :=
  match getProductById s body.productId with
  | none => (s, .productNotFound)
  | some product =>
    if product.inventory < jsQty body.quantity then (s, .outOfStock)
    else
      let body' : InsertCartItem :=
        { body with
          price := if body.price = 0 then product.price else body.price
          quantity := some (body.quantity.getD 1) }
      let r := addToCart s body'
      (r.1, .created r.2)

/-- Outcome of `PUT /api/cart/:id`. -/
inductive PutCartResult where
  | itemNotFound
  | productNotFound
  | outOfStock
  | removed
  | updated (item : CartItem)
deriving DecidableEq

/-- The tail of the `PUT /api/cart/:id` handler: `storage.updateCartItem`
and the response selection on its result. -/
def putCartFinish (s : Store) (id : ℕ) (quantity : ℤ) : Store × PutCartResult :=
  let r := updateCartItem s id quantity
  match r.2 with
  | none => if quantity ≤ 0 then (r.1, .removed) else (r.1, .itemNotFound)
  | some item => (r.1, .updated item)

/-- Embeds `PUT /api/cart/:id`: the handler looks the line up among the pending
items (`storage.getCartItems()`), 404s if absent; when the quantity is
being increased it re-checks the product's inventory against the
incremental `quantity - existingItem.quantity` (404 if the product is
gone, 400 if short); then delegates to `storage.updateCartItem`. -/
def putCart (s : Store) (id : ℕ) (quantity : ℤ) : Store × PutCartResult :=
  match (pendingItems s).find? (fun i => i.id = id) with
  | none => (s, .itemNotFound)
  | some existingItem =>
    if existingItem.quantity < quantity then
      match getProductById s existingItem.productId with
      | none => (s, .productNotFound)
      | some product =>
        if product.inventory < quantity - existingItem.quantity then
          (s, .outOfStock)
        else putCartFinish s id quantity
    else putCartFinish s id quantity

/-- Outcome of `DELETE /api/cart/:id`. -/
inductive DeleteCartResult where
  | notFound
  | noContent
deriving DecidableEq

/-- Embeds `DELETE /api/cart/:id`: `storage.removeCartItem(id)` with no check of
any kind on the line's transaction binding; 404 only when no row with that
id exists. -/
def deleteCartRoute (s : Store) (id : ℕ) : Store × DeleteCartResult :=
  let r := removeCartItem s id
  if r.2 then (r.1, .noContent) else (r.1, .notFound)

/-- Embeds `DELETE /api/cart`: `storage.clearCart()` with no arguments. -/
def clearCartRoute (s : Store) : Store :=
  clearCart s none

/-- Embeds `GET /api/cart`: `storage.getCartItems()` with no arguments (no user
scope is passed), each line joined with its product's current details. -/
def getCartRoute (s : Store) : List (CartItem × Option Product) :=
  (dbGetCartItems s none none).map (fun i => (i, getProductById s i.productId))

/-- One iteration of the settlement loop of `POST /api/transactions`:
`storage.updateCartItem(item.id, item.quantity)` (which only rewrites the
quantity and never touches `transactionId`), then an unconditional
`inventory: product.inventory - item.quantity` product update. -/
def settleItem (s : Store) (item : CartItem) : Store :=
  let s1 := (updateCartItem s item.id item.quantity).1
  match getProductById s1 item.productId with
  | none => s1
  | some product => updateProductInventory s1 product.id (product.inventory - item.quantity)

/-- Embeds `POST /api/transactions` (authenticated handler): creates the
transaction row unconditionally — there is no empty-cart check — with
`status: req.body.status || 'completed'` and the caller's user id, then
iterates the settlement loop over the pending cart snapshot.  Nothing
clears the cart afterwards. -/
def postTransaction (s : Store) (body : InsertTransaction) (userId : ℕ) : Store × Txn :=
  let r := createTransaction s
    { body with
      status := some (match body.status with
                      | some st => if st = "" then "completed" else st
                      | none => "completed")
      userId := some userId }
  let snapshot := pendingItems r.1
  (snapshot.foldl settleItem r.1, r.2)

/-! ## Behavioural lemmas about the storage operations -/

/-- Helper: `find?` skips a prefix on which the predicate always fails. -/
theorem find?_append_of_none {α : Type} (p : α → Bool) {l₁ l₂ : List α}
    (h : l₁.find? p = none) : (l₁ ++ l₂).find? p = l₂.find? p := by
  rw [List.find?_append, h]
  rfl

/-- When the ids in the store are unique, `find?` by id returns the row. -/
theorem find?_id_of_uniq {l : List CartItem} {L : CartItem} {k : ℕ}
    (hmem : L ∈ l) (hid : L.id = k)
    (huniq : ∀ i ∈ l, i.id = k → i = L) :
    l.find? (fun i => i.id = k) = some L := by
  rcases h : l.find? (fun i => i.id = k) with _ | x
  · rw [List.find?_eq_none] at h
    exact absurd (by simp [hid]) (h L hmem)
  · have hx : x.id = k := by simpa using List.find?_some h
    rw [h, huniq x (List.mem_of_find?_eq_some h) hx]

/-- Helper: `updateCartItem` on a present id with a positive quantity rewrites that
row's quantity in place. -/
theorem updateCartItem_found {s : Store} {L : CartItem} {k : ℕ} {q : ℤ}
    (h : s.cartItems.find? (fun i => i.id = k) = some L) (hq : ¬ q ≤ 0) :
    updateCartItem s k q
      = ({ s with cartItems :=
             s.cartItems.map (fun i => if i.id = k then { L with quantity := q } else i) },
         some { L with quantity := q }) := by
  unfold updateCartItem
  rw [h]
  simp [hq]

/-- Helper: `updateCartItem` on a present id with a non-positive quantity deletes
the row. -/
theorem updateCartItem_found_nonpos {s : Store} {L : CartItem} {k : ℕ} {q : ℤ}
    (h : s.cartItems.find? (fun i => i.id = k) = some L) (hq : q ≤ 0) :
    updateCartItem s k q
      = ({ s with cartItems := s.cartItems.filter (fun i => ¬ i.id = k) }, none) := by
  unfold updateCartItem
  rw [h]
  simp [hq, removeCartItem]

/-- Helper: `updateCartItem` on an absent id is the identity. -/
theorem updateCartItem_notFound {s : Store} {k : ℕ} {q : ℤ}
    (h : s.cartItems.find? (fun i => i.id = k) = none) :
    updateCartItem s k q = (s, none) := by
  unfold updateCartItem
  rw [h]

/-- The merge branch of `addToCart`. -/
theorem addToCart_merge {s : Store} {body : InsertCartItem} {e : CartItem}
    (h : (getCartItems s body.transactionId).find?
           (fun i => i.productId = body.productId) = some e) :
    addToCart s body = updateCartItem s e.id (e.quantity + jsQty body.quantity) := by
  unfold addToCart
  rw [h]

/-- The fresh-row branch of `addToCart`. -/
theorem addToCart_new {s : Store} {body : InsertCartItem}
    (h : (getCartItems s body.transactionId).find?
           (fun i => i.productId = body.productId) = none) :
    addToCart s body
      = ({ s with
            cartItems := s.cartItems ++
              [{ id := s.cartItemId
                 transactionId := jsOptNat body.transactionId
                 productId := body.productId
                 quantity := jsQty body.quantity
                 price := body.price
                 userId := jsOptNat body.userId }]
            cartItemId := s.cartItemId + 1 },
         some
           { id := s.cartItemId
             transactionId := jsOptNat body.transactionId
             productId := body.productId
             quantity := jsQty body.quantity
             price := body.price
             userId := jsOptNat body.userId }) := by
  unfold addToCart
  rw [h]

/-- Helper: `updateCartItem` never touches the transactions table. -/
theorem updateCartItem_transactions (s : Store) (k : ℕ) (q : ℤ) :
    (updateCartItem s k q).1.transactions = s.transactions := by
  rcases h : s.cartItems.find? (fun i => i.id = k) with _ | item
  · rw [updateCartItem_notFound h]
  · by_cases hq : q ≤ 0
    · rw [updateCartItem_found_nonpos h hq]
    · rw [updateCartItem_found h hq]

/-- One settlement-loop iteration never touches the transactions table. -/
theorem settleItem_transactions (s : Store) (item : CartItem) :
    (settleItem s item).transactions = s.transactions := by
  unfold settleItem
  dsimp only
  rcases h : getProductById (updateCartItem s item.id item.quantity).1 item.productId with _ | p
  · exact updateCartItem_transactions s item.id item.quantity
  · exact updateCartItem_transactions s item.id item.quantity

/-- The whole settlement loop never touches the transactions table. -/
theorem foldl_settleItem_transactions (items : List CartItem) (s : Store) :
    (items.foldl settleItem s).transactions = s.transactions := by
  induction items generalizing s with
  | nil => rfl
  | cons a l ih => rw [List.foldl_cons, ih, settleItem_transactions]

/-! ## Concrete fixtures -/

/-- A store with one product (inventory 1) and one pending cart line
requesting quantity 2 of it. -/
def storeC3 : Store :=
  { products := [{ id := 1, name := "Widget", price := 5, category := "Misc",
                   inventory := 1, imageUrl := none, userId := none }]
    cartItems := [{ id := 1, transactionId := none, productId := 1,
                    quantity := 2, price := 5, userId := none }]
    transactions := []
    cartItemId := 2
    transactionId := 1 }

/-- The checkout payload the client sends for `storeC3`. -/
def bodyC3 : InsertTransaction :=
  { subtotal := 10, tax := 0, total := 10, paymentMethod := "cash" }

/-- Claim C3: the claim says the settlement-time decrement fails with
InsufficientInventory and leaves inventory unchanged whenever the quantity
exceeds the on-hand count, and inventory never becomes negative.  The
`POST /api/transactions` handler instead updates the product with the
unconditional difference `product.inventory - item.quantity`: settling a
line of quantity 2 against inventory 1 succeeds and leaves inventory −1. -/
theorem settlement_decrement_unguarded :
    ((postTransaction storeC3 bodyC3 1).1.products.map (fun p => (p.id, p.inventory)))
      = [(1, -1)] := by decide

/-- A store whose pending cart is empty. -/
def storeC4 : Store :=
  { products := [], cartItems := [], transactions := [], cartItemId := 1, transactionId := 1 }

/-- A checkout payload for the empty-cart scenario. -/
def bodyC4 : InsertTransaction :=
  { subtotal := 0, tax := 0, total := 0, paymentMethod := "cash" }

/-- Counterexample to claim C4: checking out an empty cart does not fail —
the handler has no EmptyCart guard, and a transaction row is created. -/
theorem empty_cart_checkout_creates_row :
    pendingItems storeC4 = []
    ∧ (postTransaction storeC4 bodyC4 1).1.transactions.length = 1
    ∧ (postTransaction storeC4 bodyC4 1).2.id = 1 := by decide

/-- Claim C4 as amended: the checkout handler never checks for an empty
cart; for every state and payload it unconditionally appends exactly one
new transaction row (in particular it does so when the cart is empty). -/
theorem checkout_always_creates_one_transaction
    (s : Store) (body : InsertTransaction) (userId : ℕ) :
    (postTransaction s body userId).1.transactions
      = s.transactions ++ [(postTransaction s body userId).2] := by
  unfold postTransaction
  rw [foldl_settleItem_transactions]
  rfl

/-- A store with one product (ample inventory) and one pending cart line. -/
def storeC5 : Store :=
  { products := [{ id := 1, name := "Widget", price := 5, category := "Misc",
                   inventory := 10, imageUrl := none, userId := none }]
    cartItems := [{ id := 1, transactionId := none, productId := 1,
                    quantity := 2, price := 5, userId := none }]
    transactions := []
    cartItemId := 2
    transactionId := 1 }

/-- The checkout payload the client sends for `storeC5`. -/
def bodyC5 : InsertTransaction :=
  { subtotal := 10, tax := 1, total := 11, paymentMethod := "cash" }

/-- Claim C5: the claim says a successful checkout binds every pending line
to the new transaction id and leaves the scope's pending cart empty.  The
loop in `POST /api/transactions` calls `updateCartItem(item.id,
item.quantity)`, which only rewrites the quantity and cannot set
`transactionId`, and nothing clears the cart: after checkout the line is
still pending (`transactionId = none`), the pending cart is the whole cart,
and the receipt query for the new transaction id finds no lines. -/
theorem settlement_leaves_lines_unbound :
    ((postTransaction storeC5 bodyC5 1).1.cartItems.map (fun i => (i.id, i.transactionId)))
      = [(1, (none : Option ℕ))]
    ∧ pendingItems (postTransaction storeC5 bodyC5 1).1
        = (postTransaction storeC5 bodyC5 1).1.cartItems
    ∧ getCartItems (postTransaction storeC5 bodyC5 1).1
        (some (postTransaction storeC5 bodyC5 1).2.id) = [] := by decide

/-- Claim C6: starting from a cart with no pending line for product `pid`
(and a fresh next id, as maintained by the id counter), adding quantity
`q1` and then quantity `q2` of `pid` yields exactly one pending line for
`pid`, carrying quantity `q1 + q2` — never two lines for the same
product. -/
theorem addToCart_merge_on_add (s : Store) (pid : ℕ) (q1 q2 : ℤ) (pr1 pr2 : ℚ)
    (hP : ∀ i ∈ pendingItems s, ¬ i.productId = pid)
    (hfresh : ∀ i ∈ s.cartItems, ¬ i.id = s.cartItemId)
    (hq1 : 1 ≤ q1) (hq2 : 1 ≤ q2) :
    ((pendingItems (addToCart (addToCart s
          { productId := pid, quantity := some q1, price := pr1 }).1
          { productId := pid, quantity := some q2, price := pr2 }).1).filter
        (fun i => i.productId = pid)).map (fun i => i.quantity)
      = [q1 + q2] := by
  have hq1' : jsQty (some q1) = q1 := by
    show (if q1 = 0 then 1 else q1) = q1
    rw [if_neg (by omega)]
  have hq2' : jsQty (some q2) = q2 := by
    show (if q2 = 0 then 1 else q2) = q2
    rw [if_neg (by omega)]
  have hf1 : (pendingItems s).find? (fun i => i.productId = pid) = none := by
    rw [List.find?_eq_none]
    intro x hx
    simpa using hP x hx
  have e1 : addToCart s { productId := pid, quantity := some q1, price := pr1 }
      = (⟨s.products, s.cartItems ++ [⟨s.cartItemId, none, pid, q1, pr1, none⟩], s.transactions, s.cartItemId + 1, s.transactionId⟩,
         some ⟨s.cartItemId, none, pid, q1, pr1, none⟩) := by
    rw [addToCart_new hf1, hq1']
    exact rfl
  rw [e1]
  dsimp only
  have hpend1 : pendingItems
        ⟨s.products, s.cartItems ++ [⟨s.cartItemId, none, pid, q1, pr1, none⟩], s.transactions, s.cartItemId + 1, s.transactionId⟩
      = pendingItems s ++ [⟨s.cartItemId, none, pid, q1, pr1, none⟩] := by
    show (s.cartItems ++ [(⟨s.cartItemId, none, pid, q1, pr1, none⟩ : CartItem)]).filter
        (fun i => i.transactionId = none) = _
    rw [List.filter_append]
    simp [pendingItems]
  have hf2 : (pendingItems
        ⟨s.products, s.cartItems ++ [⟨s.cartItemId, none, pid, q1, pr1, none⟩], s.transactions, s.cartItemId + 1, s.transactionId⟩).find?
        (fun i => i.productId = pid)
      = some ⟨s.cartItemId, none, pid, q1, pr1, none⟩ := by
    rw [hpend1, find?_append_of_none _ hf1, List.find?_cons_of_pos _ (by simp)]
  rw [addToCart_merge hf2]
  dsimp only
  rw [hq2']
  have hfid : (s.cartItems ++ [(⟨s.cartItemId, none, pid, q1, pr1, none⟩ : CartItem)]).find?
        (fun i => i.id = s.cartItemId)
      = some ⟨s.cartItemId, none, pid, q1, pr1, none⟩ := by
    have hnone : s.cartItems.find? (fun i => i.id = s.cartItemId) = none := by
      rw [List.find?_eq_none]
      intro x hx
      simpa using hfresh x hx
    rw [find?_append_of_none _ hnone, List.find?_cons_of_pos _ (by simp)]
  have hupd := @updateCartItem_found
      ⟨s.products, s.cartItems ++ [⟨s.cartItemId, none, pid, q1, pr1, none⟩], s.transactions, s.cartItemId + 1, s.transactionId⟩
      ⟨s.cartItemId, none, pid, q1, pr1, none⟩ s.cartItemId (q1 + q2) hfid (by omega)
  rw [hupd]
  dsimp only
  have hmap : (s.cartItems ++ [(⟨s.cartItemId, none, pid, q1, pr1, none⟩ : CartItem)]).map
        (fun i => if i.id = s.cartItemId
                  then (⟨s.cartItemId, none, pid, q1 + q2, pr1, none⟩ : CartItem) else i)
      = s.cartItems ++ [⟨s.cartItemId, none, pid, q1 + q2, pr1, none⟩] := by
    rw [List.map_append]
    have hleft : s.cartItems.map
          (fun i => if i.id = s.cartItemId
                    then (⟨s.cartItemId, none, pid, q1 + q2, pr1, none⟩ : CartItem) else i)
        = s.cartItems := by
      rw [List.map_congr_left (fun a ha => if_neg (hfresh a ha)), List.map_id']
    rw [hleft]
    simp
  simp only [hmap]
  have hpend2 : pendingItems
        ⟨s.products, s.cartItems ++ [⟨s.cartItemId, none, pid, q1 + q2, pr1, none⟩], s.transactions, s.cartItemId + 1, s.transactionId⟩
      = pendingItems s ++ [⟨s.cartItemId, none, pid, q1 + q2, pr1, none⟩] := by
    show (s.cartItems ++ [(⟨s.cartItemId, none, pid, q1 + q2, pr1, none⟩ : CartItem)]).filter
        (fun i => i.transactionId = none) = _
    rw [List.filter_append]
    simp [pendingItems]
  rw [hpend2, List.filter_append, List.filter_eq_nil_iff.mpr (fun a ha => by simpa using hP a ha)]
  simp

/-- Witness for C6 at a concrete input: a cart holding a pending line for
another product, then two adds of product 7 with quantities 1 and 2. -/
theorem addToCart_merge_on_add_witness :
    ((pendingItems (addToCart (addToCart
          { products := [], transactions := [], cartItemId := 5, transactionId := 1,
            cartItems := [⟨2, none, 3, 1, 2, none⟩] }
          { productId := 7, quantity := some 1, price := 4 }).1
          { productId := 7, quantity := some 2, price := 9 }).1).filter
        (fun i => i.productId = 7)).map (fun i => i.quantity)
      = [1 + 2] :=
  addToCart_merge_on_add
    { products := [], transactions := [], cartItemId := 5, transactionId := 1,
      cartItems := [⟨2, none, 3, 1, 2, none⟩] }
    7 1 2 4 9 (by decide) (by decide) (by decide) (by decide)

/-- Claim C7: for an existing pending line `L` (looked up by the handler)
whose product `P` exists, `setQuantity` behaves as: `newQty ≤ 0` removes
the line (a delete, not an error — a subsequent list() does not include
it); an increase fails with OutOfStock exactly when `P.inventory <
newQty − oldQty`, leaving the state unchanged; otherwise the stored
quantity is replaced by `newQty`. -/
theorem putCart_setQuantity_spec (s : Store) (lineId : ℕ) (L : CartItem) (P : Product)
    (hfind : (pendingItems s).find? (fun i => i.id = lineId) = some L)
    (hold : 1 ≤ L.quantity)
    (hP : getProductById s L.productId = some P)
    (huniq : ∀ i ∈ s.cartItems, i.id = lineId → i = L) :
    ∀ newQty : ℤ,
    (newQty ≤ 0 →
      putCart s lineId newQty
        = ({ s with cartItems := s.cartItems.filter (fun i => ¬ i.id = lineId) }, .removed)
      ∧ ∀ x ∈ pendingItems (putCart s lineId newQty).1, ¬ x.id = lineId)
    ∧ (L.quantity < newQty → P.inventory < newQty - L.quantity →
        putCart s lineId newQty = (s, .outOfStock))
    ∧ (0 < newQty → (L.quantity < newQty → newQty - L.quantity ≤ P.inventory) →
        putCart s lineId newQty
          = ({ s with cartItems := s.cartItems.map (fun i => if i.id = lineId then { L with quantity := newQty } else i) },
             .updated { L with quantity := newQty })) := by
  have hLpend : L ∈ pendingItems s := List.mem_of_find?_eq_some hfind
  have hLmem : L ∈ s.cartItems := List.mem_of_mem_filter hLpend
  have hLid : L.id = lineId := by simpa using List.find?_some hfind
  have hfall : s.cartItems.find? (fun i => i.id = lineId) = some L :=
    find?_id_of_uniq hLmem hLid huniq
  intro newQty
  refine ⟨?_, ?_, ?_⟩
  · intro hq
    have hstep : putCart s lineId newQty
        = ({ s with cartItems := s.cartItems.filter (fun i => ¬ i.id = lineId) }, .removed) := by
      unfold putCart
      rw [hfind]
      dsimp only
      rw [if_neg (show ¬ L.quantity < newQty by omega)]
      unfold putCartFinish
      rw [updateCartItem_found_nonpos hfall hq]
      dsimp only
      rw [if_pos hq]
    refine ⟨hstep, ?_⟩
    intro x hx
    rw [hstep] at hx
    have hx2 := List.mem_of_mem_filter hx
    have hx3 := (List.mem_filter.mp hx2).2
    simpa using hx3
  · intro hlt hinv
    unfold putCart
    rw [hfind]
    dsimp only
    rw [if_pos hlt, hP]
    dsimp only
    rw [if_pos hinv]
  · intro hpos hok
    have hq : ¬ newQty ≤ 0 := by omega
    have hfinish : putCartFinish s lineId newQty
        = ({ s with cartItems := s.cartItems.map (fun i => if i.id = lineId then { L with quantity := newQty } else i) },
           .updated { L with quantity := newQty }) := by
      unfold putCartFinish
      rw [updateCartItem_found hfall hq]
    unfold putCart
    rw [hfind]
    dsimp only
    by_cases hlt : L.quantity < newQty
    · rw [if_pos hlt, hP]
      dsimp only
      rw [if_neg (not_lt.mpr (hok hlt))]
      exact hfinish
    · rw [if_neg hlt]
      exact hfinish

/-- A store with one product (inventory 1) and one pending line of
quantity 2 for it, exercising claim C7. -/
def storeC7 : Store :=
  { products := [⟨1, "Widget", 5, "Misc", 1, none, none⟩]
    cartItems := [⟨1, none, 1, 2, 5, none⟩]
    transactions := []
    cartItemId := 2
    transactionId := 1 }

/-- Witness for C7 at a concrete input: increasing the quantity from 2 to
4 needs 2 extra units but only 1 is on hand, so the route fails with
OutOfStock and leaves the state unchanged. -/
theorem putCart_setQuantity_spec_witness :
    putCart storeC7 1 4 = (storeC7, .outOfStock) :=
  ((putCart_setQuantity_spec storeC7 1 ⟨1, none, 1, 2, 5, none⟩
      ⟨1, "Widget", 5, "Misc", 1, none, none⟩
      (by decide) (by decide) (by decide) (by decide) 4).2.1 (by decide) (by decide))

/-- The state left by `DELETE /api/cart/:id` is the filtered cart in both
the found and the not-found branch. -/
theorem deleteCartRoute_state (s : Store) (k : ℕ) :
    (deleteCartRoute s k).1
      = { s with cartItems := s.cartItems.filter (fun i => ¬ i.id = k) } := by
  unfold deleteCartRoute removeCartItem
  dsimp only
  split <;> rfl

/-- A store holding a single line bound to transaction 1. -/
def storeC8 : Store :=
  { products := []
    cartItems := [⟨1, some 1, 1, 2, 5, none⟩]
    transactions := []
    cartItemId := 2
    transactionId := 2 }

/-- Counterexample to claim C8: a line bound to a transaction is NOT immune
to cart operations — `DELETE /api/cart/:id` deletes it (the handler calls
`removeCartItem` with no check of the line's transaction binding), with a
204 response. -/
theorem bound_line_deleted_by_remove_route :
    (deleteCartRoute storeC8 1).1.cartItems = []
    ∧ (deleteCartRoute storeC8 1).2 = .noContent := by decide

/-- Claim C8 as amended: a transaction-bound line is untouched by clear, by
setQuantity (the update route only finds pending lines and 404s on a bound
id, leaving the state unchanged) and by addItem for a pending add (the
merge only scans the pending scope); but removeItem deletes any line by
bare id, bound or not. -/
theorem bound_lines_immune_except_remove (s : Store) (b : CartItem) (t : ℕ)
    (hb : b ∈ s.cartItems) (hbound : b.transactionId = some t)
    (huniq : ∀ i ∈ s.cartItems, i.id = b.id → i = b) :
    b ∈ (clearCartRoute s).cartItems
    ∧ (∀ q : ℤ, putCart s b.id q = (s, .itemNotFound))
    ∧ (∀ body : InsertCartItem, body.transactionId = none →
        b ∈ (postCart s body).1.cartItems)
    ∧ b ∉ (deleteCartRoute s b.id).1.cartItems := by
  refine ⟨?_, ?_, ?_, ?_⟩
  · exact List.mem_filter.mpr ⟨hb, by simp [hbound]⟩
  · intro q
    have hpend : (pendingItems s).find? (fun i => i.id = b.id) = none := by
      rw [List.find?_eq_none]
      intro x hx
      have hxmem : x ∈ s.cartItems := List.mem_of_mem_filter hx
      have hxpend : x.transactionId = none := by simpa using (List.mem_filter.mp hx).2
      simp only [decide_eq_true_eq]
      intro hxb
      rw [huniq x hxmem hxb, hbound] at hxpend
      exact Option.noConfusion hxpend
    unfold putCart
    rw [hpend]
  · intro body htx
    unfold postCart
    rcases hp : getProductById s body.productId with _ | product
    · exact hb
    · dsimp only
      by_cases hinv : product.inventory < jsQty body.quantity
      · rw [if_pos hinv]
        exact hb
      · rw [if_neg hinv]
        dsimp only
        unfold addToCart
        dsimp only
        rcases hf : (getCartItems s body.transactionId).find?
            (fun i => i.productId = body.productId) with _ | e
        · rw [hf]
          exact List.mem_append_left _ hb
        · rw [hf]
          dsimp only
          have hemem : e ∈ pendingItems s := by
            have := List.mem_of_find?_eq_some hf
            rw [htx] at this
            exact this
          have hepend : e.transactionId = none := by
            simpa using (List.mem_filter.mp hemem).2
          have hne : ¬ b.id = e.id := by
            intro hh
            have : e = b := huniq e (List.mem_of_mem_filter hemem) hh.symm
            rw [this, hbound] at hepend
            exact Option.noConfusion hepend
          rcases hu : s.cartItems.find? (fun i => i.id = e.id) with _ | Lf
          · rw [updateCartItem_notFound hu]
            exact hb
          · by_cases hq : e.quantity + jsQty (some (body.quantity.getD 1)) ≤ 0
            · rw [updateCartItem_found_nonpos hu hq]
              exact List.mem_filter.mpr ⟨hb, by simpa using hne⟩
            · rw [updateCartItem_found hu hq]
              refine List.mem_map.mpr ⟨b, hb, ?_⟩
              dsimp only
              rw [if_neg hne]
  · rw [deleteCartRoute_state]
    intro hmem
    have := (List.mem_filter.mp hmem).2
    simp at this

/-- Witness for the amended C8 at a concrete input. -/
theorem bound_lines_immune_except_remove_witness :
    (⟨1, some 1, 1, 2, 5, none⟩ : CartItem)
      ∉ (deleteCartRoute storeC8 (⟨1, some 1, 1, 2, 5, none⟩ : CartItem).id).1.cartItems :=
  (bound_lines_immune_except_remove storeC8 ⟨1, some 1, 1, 2, 5, none⟩ 1
    (by decide) (by decide) (by decide)).2.2.2

/-- A two-user scenario: user A (id 1) observes the cart; user B (id 2)
adds a line.  The shared store starts with one product and an empty
cart. -/
def storeC9 : Store :=
  { products := [⟨1, "Widget", 5, "Misc", 5, none, none⟩]
    cartItems := []
    transactions := []
    cartItemId := 1
    transactionId := 1 }

/-- The add-to-cart request issued by user B (id 2). -/
def bodyB : InsertCartItem :=
  { productId := 1, quantity := some 1, price := 5, userId := some 2 }

/-- Counterexample to claim C9: two runs that differ only in a cart
mutation by user B give different results for the cart list operation, and
the list contains a line owned by B (`userId = some 2`), not by A
(id 1) — `GET /api/cart` passes no user scope at all. -/
theorem cart_list_not_user_isolated :
    getCartRoute (postCart storeC9 bodyB).1 ≠ getCartRoute storeC9
    ∧ ∃ x ∈ getCartRoute (postCart storeC9 bodyB).1, x.1.userId = some 2 := by decide

/-- Claim C9 as amended: the cart list route applies no owner filter — it
returns every pending line of every user, joined with product details
(`storage.getCartItems()` is called with no user argument), so one user's
mutations are visible in any user's list; only the storage layer itself
can filter: `DatabaseStorage.getCartItems` with a (truthy) user id
returns exclusively that user's lines. -/
theorem cart_route_applies_no_user_filter (s : Store) :
    getCartRoute s = (pendingItems s).map (fun i => (i, getProductById s i.productId))
    ∧ dbGetCartItems s none none = pendingItems s
    ∧ ∀ u : ℕ, ∀ i ∈ dbGetCartItems s none (some (u + 1)), i.userId = some (u + 1) := by
  have h2 : dbGetCartItems s none none = pendingItems s := by
    unfold dbGetCartItems pendingItems
    simp
  refine ⟨?_, h2, ?_⟩
  · unfold getCartRoute
    rw [h2]
  · intro u i hi
    have hprop := (List.mem_filter.mp hi).2
    simp at hprop
    exact hprop.2

/-- A store holding one pending line owned by user 3, witnessing the
storage-level user filter of the amended C9. -/
def storeC9w : Store :=
  { products := []
    cartItems := [⟨1, none, 1, 1, 5, some 3⟩]
    transactions := []
    cartItemId := 2
    transactionId := 1 }

/-- Witness for the amended C9 at a concrete input. -/
theorem cart_route_applies_no_user_filter_witness :
    (⟨1, none, 1, 1, 5, some 3⟩ : CartItem).userId = some 3 :=
  (cart_route_applies_no_user_filter storeC9w).2.2 2 ⟨1, none, 1, 1, 5, some 3⟩ (by decide)

/-- Claim C10: when `addToCart` merges into an existing pending line for
the same product and scope, only that line's quantity changes: the stored
cart equals the original with just that row's quantity bumped, no new row
is allocated, and the merged row keeps its frozen price even when the
incoming item carries a different price. -/
theorem addToCart_merge_preserves_frozen_price
    (s : Store) (e : CartItem) (body : InsertCartItem)
    (htx : body.transactionId = none)
    (hfind : (pendingItems s).find? (fun i => i.productId = body.productId) = some e)
    (huniq : ∀ i ∈ s.cartItems, i.id = e.id → i = e)
    (hq : 1 ≤ jsQty body.quantity) (he : 1 ≤ e.quantity) :
    (addToCart s body).1.cartItems
      = s.cartItems.map (fun i => if i.id = e.id then { e with quantity := e.quantity + jsQty body.quantity } else i)
    ∧ (addToCart s body).1.cartItemId = s.cartItemId
    ∧ ∀ i ∈ (addToCart s body).1.cartItems,
        i.id = e.id → i.price = e.price ∧ i.quantity = e.quantity + jsQty body.quantity := by
  have hemem : e ∈ s.cartItems := List.mem_of_mem_filter (List.mem_of_find?_eq_some hfind)
  have hfall : s.cartItems.find? (fun i => i.id = e.id) = some e :=
    find?_id_of_uniq hemem rfl huniq
  have hfind' : (getCartItems s body.transactionId).find?
      (fun i => i.productId = body.productId) = some e := by
    rw [htx]
    exact hfind
  have hupd : addToCart s body = updateCartItem s e.id (e.quantity + jsQty body.quantity) :=
    addToCart_merge hfind'
  have hres : addToCart s body
      = ({ s with cartItems := s.cartItems.map (fun i => if i.id = e.id then { e with quantity := e.quantity + jsQty body.quantity } else i) },
         some { e with quantity := e.quantity + jsQty body.quantity }) := by
    rw [hupd, updateCartItem_found hfall (by omega)]
  rw [hres]
  refine ⟨rfl, rfl, ?_⟩
  intro i hi hid
  rcases List.mem_map.mp hi with ⟨j, hj, hji⟩
  by_cases hje : j.id = e.id
  · rw [huniq j hj hje] at hji
    rw [if_pos rfl] at hji
    rw [← hji]
    exact ⟨rfl, rfl⟩
  · rw [if_neg hje] at hji
    rw [← hji] at hid
    exact absurd hid hje

/-- A store with a pending line for product 1 (frozen price 5) and a
distractor line, for the C10 witness; the incoming add carries the changed
catalog price 9. -/
def storeC10 : Store :=
  { products := [⟨1, "Widget", 9, "Misc", 5, none, none⟩]
    cartItems := [⟨1, none, 1, 2, 5, none⟩, ⟨2, none, 4, 1, 3, none⟩]
    transactions := []
    cartItemId := 3
    transactionId := 1 }

/-- Witness for C10 at a concrete input: merging an add with new price 9
keeps the stored cart equal to the original with only line 1's quantity
bumped (price stays 5). -/
theorem addToCart_merge_preserves_frozen_price_witness :
    (addToCart storeC10 { productId := 1, quantity := some 3, price := 9 }).1.cartItems
      = storeC10.cartItems.map
          (fun i => if i.id = 1 then { (⟨1, none, 1, 2, 5, none⟩ : CartItem) with quantity := 2 + jsQty (some 3) } else i) :=
  (addToCart_merge_preserves_frozen_price storeC10 ⟨1, none, 1, 2, 5, none⟩
    { productId := 1, quantity := some 3, price := 9 }
    rfl (by decide) (by decide) (by decide) (by decide)).1

end SimplePOS
